import Mathlib

/-!
Shallow embedding of `md/pandoc.py`, a set of panflute (pandoc) AST filters:
`h1hr`, `bq`, `graphviz`, `mermaid`, `op`, plus the `sha1` helper and the
filter registration performed in the `__main__` block.

Python machine-level details are made explicit:
* `hashlib.sha1(...).hexdigest()` is implemented bit-for-bit over `Nat`
  (32-bit words represented as `Nat` reduced modulo `2 ^ 32`), applied to the
  UTF-8 encoding of the text (`sys.getfilesystemencoding()` on a standard
  Linux host is UTF-8).
* Filesystem and subprocess interaction is explicit: an `Env` records what
  `os.path.isfile` answers and whether `os.mkdir` / `subprocess.check_call`
  raise; the side effects a filter performs are returned as a trace.
-/

namespace Pandoc

/-- `2 ^ 32` truncation of a `Nat`, the wrap-around of Python/SHA-1 32-bit
word arithmetic. -/
def w32 (n : Nat) : Nat := n % 2 ^ 32

/-- 32-bit left rotation by `s` of a word `n < 2 ^ 32`. -/
def rotl (s n : Nat) : Nat := w32 (n <<< s) ||| (n >>> (32 - s))

/-- UTF-8 encoding of one character, as its list of bytes (each `< 256`). -/
def utf8Bytes (c : Char) : List Nat :=
  let n := c.toNat
  if n < 0x80 then [n]
  else if n < 0x800 then
    [0xC0 ||| (n >>> 6), 0x80 ||| (n &&& 0x3F)]
  else if n < 0x10000 then
    [0xE0 ||| (n >>> 12), 0x80 ||| ((n >>> 6) &&& 0x3F), 0x80 ||| (n &&& 0x3F)]
  else
    [0xF0 ||| (n >>> 18), 0x80 ||| ((n >>> 12) &&& 0x3F),
     0x80 ||| ((n >>> 6) &&& 0x3F), 0x80 ||| (n &&& 0x3F)]

/-- UTF-8 encoding of a string: `x.encode(sys.getfilesystemencoding())`. -/
def strBytes (s : String) : List Nat := (s.data.map utf8Bytes).flatten

/-- Big-endian 8-byte encoding of the 64-bit message length in bits. -/
def lenBytes (ml : Nat) : List Nat :=
  (List.range 8).map (fun i => (ml >>> (8 * (7 - i))) &&& 255)

/-- SHA-1 message padding: append `0x80`, zero bytes up to 56 mod 64, then
the message bit length as 8 big-endian bytes. -/
def padBytes (msg : List Nat) : List Nat :=
  let ml := 8 * msg.length
  let zeros := (119 - msg.length % 64) % 64
  msg ++ [0x80] ++ List.replicate zeros 0 ++ lenBytes ml

/-- Group bytes four at a time into big-endian 32-bit words. -/
def toWords : List Nat → List Nat
  | b0 :: b1 :: b2 :: b3 :: rest =>
      (b0 <<< 24 ||| b1 <<< 16 ||| b2 <<< 8 ||| b3) :: toWords rest
  | _ => []

/-- Split a byte list into successive chunks of 64 bytes; the fuel is an
upper bound on the number of chunks, making the recursion structural. -/
def chunksOf64Aux : Nat → List Nat → List (List Nat)
  | 0, _ => []
  | _, [] => []
  | fuel + 1, x :: rest => (x :: rest.take 63) :: chunksOf64Aux fuel (rest.drop 63)

/-- Split a byte list into successive chunks of 64 bytes. -/
def chunksOf64 (l : List Nat) : List (List Nat) :=
  chunksOf64Aux l.length l

/-- SHA-1 round function `f_t(b, c, d)`. -/
def shaF (t b c d : Nat) : Nat :=
  if t < 20 then (b &&& c) ||| ((b ^^^ 0xFFFFFFFF) &&& d)
  else if t < 40 then b ^^^ c ^^^ d
  else if t < 60 then (b &&& c) ||| (b &&& d) ||| (c &&& d)
  else b ^^^ c ^^^ d

/-- SHA-1 round constant `K_t`. -/
def shaK (t : Nat) : Nat :=
  if t < 20 then 0x5A827999
  else if t < 40 then 0x6ED9EBA1
  else if t < 60 then 0x8F1BBCDC
  else 0xCA62C1D6

/-- Extend the 16 schedule words by `k` more words
`w[i] = rotl 1 (w[i-3] xor w[i-8] xor w[i-14] xor w[i-16])`. -/
def extendWords (ws : List Nat) : Nat → List Nat
  | 0 => ws
  | k + 1 =>
      let n := ws.length
      extendWords
        (ws ++ [rotl 1 ((ws.getD (n - 3) 0) ^^^ (ws.getD (n - 8) 0) ^^^
                        (ws.getD (n - 14) 0) ^^^ (ws.getD (n - 16) 0))]) k

/-- The 80 SHA-1 rounds starting at round `t` on state `(a, b, c, d, e)`,
running for the given fuel. -/
def rounds (ws : List Nat) (t a b c d e : Nat) : Nat → Nat × Nat × Nat × Nat × Nat
  | 0 => (a, b, c, d, e)
  | k + 1 =>
      let temp := w32 (rotl 5 a + shaF t b c d + e + shaK t + ws.getD t 0)
      rounds ws (t + 1) temp a (rotl 30 b) c d k

/-- Process the padded chunks, threading the five hash words. -/
def processChunks : Nat × Nat × Nat × Nat × Nat → List (List Nat) →
    Nat × Nat × Nat × Nat × Nat
  | h, [] => h
  | (h0, h1, h2, h3, h4), chunk :: rest =>
      let ws := extendWords (toWords chunk) 64
      let (a, b, c, d, e) := rounds ws 0 h0 h1 h2 h3 h4 80
      processChunks (w32 (h0 + a), w32 (h1 + b), w32 (h2 + c),
                     w32 (h3 + d), w32 (h4 + e)) rest

/-- Lower-case hexadecimal digit for `n < 16`. -/
def hexDigit (n : Nat) : Char :=
  if n < 10 then Char.ofNat (48 + n) else Char.ofNat (87 + n)

/-- Eight-hex-digit rendering of a 32-bit word. -/
def hex8 (n : Nat) : String :=
  String.mk ((List.range 8).map (fun i => hexDigit ((n >>> (4 * (7 - i))) &&& 15)))

/-- `sha1(x)` from the source: `hashlib.sha1(x.encode(...)).hexdigest()`,
the 40-character lower-case hexadecimal SHA-1 digest of the UTF-8 bytes. -/
def sha1 (x : String) : String :=
  let (h0, h1, h2, h3, h4) :=
    processChunks (0x67452301, 0xEFCDAB89, 0x98BADCFE, 0x10325476, 0xC3D2E1F0)
      (chunksOf64 (padBytes (strBytes x)))
  hex8 h0 ++ hex8 h1 ++ hex8 h2 ++ hex8 h3 ++ hex8 h4

/-- Pandoc AST elements, as panflute presents them to a filter.  Only the
constructors this code inspects or builds are distinguished; `Other`
stands for every further node kind (`Para`, `Str`, ... are also listed
because the filters construct them).  Field order follows the panflute
constructors: `CodeBlock(text, identifier, classes, attributes)`,
`Code(text, identifier, classes, attributes)`,
`Div(*content, identifier, classes, attributes)`,
`Header(*content, level, identifier, classes, attributes)`,
`Image(*content, url, title)`, `RawInline(text, format)`. -/
inductive Elem where
  | Header (content : List Elem) (level : Nat) (identifier : String)
      (classes : List String) (attributes : List (String × String))
  | Div (content : List Elem) (identifier : String)
      (classes : List String) (attributes : List (String × String))
  | CodeBlock (text : String) (identifier : String)
      (classes : List String) (attributes : List (String × String))
  | Code (text : String) (identifier : String)
      (classes : List String) (attributes : List (String × String))
  | BlockQuote (content : List Elem)
  | Para (content : List Elem)
  | Image (content : List Elem) (url : String) (title : String)
  | Str (text : String)
  | RawInline (text : String) (format : String)
  | Other (tag : String)

/-- The document handed to every filter; the filters here only ever read
`doc.format` (and only `graphviz` does that). -/
structure Doc where
  format : String

/-- `elem.attributes.get(k, d)`: the value of key `k`, or `d` when absent
(panflute attributes form a dict, so keys are unique). -/
def getAttr (attrs : List (String × String)) (k d : String) : String :=
  match attrs.lookup k with
  | some v => v
  | none => d

/-- Python dict assignment `attrs[k] = v`: overwrite the value in place when
the key exists, otherwise append the new binding. -/
def setAttr (attrs : List (String × String)) (k v : String) :
    List (String × String) :=
  if attrs.any (fun p => p.1 = k) then
    attrs.map (fun p => if p.1 = k then (k, v) else p)
  else attrs ++ [(k, v)]

/-- `h1hr(elem, doc)`: add a bottom border to all the h1 headers. -/
def h1hr (elem : Elem) (_doc : Doc) : Option Elem :=
  match elem with
  | .Header content level identifier classes attributes =>
      if level ≠ 1 then none
      else some (.Header content level identifier classes
        (setAttr attributes "style" "border-bottom:1px solid #cccccc"))
  | _ => none

/-- `bq(elem, doc)`: turn a `::: bq` div into a blockquote; wrap the content
of a `std` div in a blockquote inside a fresh div carrying the same classes
(panflute `Div` defaults: identifier `""`, attributes `{}`). -/
def bq (elem : Elem) (_doc : Doc) : Option Elem :=
  match elem with
  | .Div content _identifier classes _attributes =>
      if classes = ["bq"] then some (.BlockQuote content)
      else if "std" ∈ classes then
        some (.Div [.BlockQuote content] "" classes [])
      else none
  | _ => none

/-- Python exceptions surfacing in this code: `NameError` (the commented-out
`pygraphviz` import), `OSError` (from `os.mkdir`; `FileNotFoundError` for a
missing binary is a subclass), `CalledProcessError` (non-zero exit from
`subprocess.check_call`). -/
inductive PyError where
  | nameError
  | osError
  | calledProcessError (returncode : Nat)
  deriving DecidableEq, Repr

/-- Observable side effects of a filter run: a directory creation attempt, a
file write, an external command invocation. -/
inductive Effect where
  | mkdir (dir : String)
  | writeFile (path : String) (content : String)
  | checkCall (cmd : List String)
  deriving DecidableEq, Repr

/-- The host environment a filter run sees: `md_dir` is
`os.path.dirname(__file__)` (the module-level `MD_DIR`), `isfile` is what
`os.path.isfile` answers, `mkdirError`/`rendererError` say whether
`os.mkdir` / `subprocess.check_call` raise and with what. -/
structure Env where
  md_dir : String
  isfile : String → Bool
  mkdirError : String → Option PyError
  rendererError : Option PyError

/-- `os.mkdir(dir)`: succeeds or raises `OSError` as the environment says. -/
def os_mkdir (env : Env) (dir : String) : Except PyError Unit :=
  match env.mkdirError dir with
  | some e => .error e
  | none => .ok ()

/-- `subprocess.check_call(cmd, ...)`: succeeds or raises as the environment
says (a `CalledProcessError`, or `FileNotFoundError ≤ OSError` when the
binary is missing). -/
def check_call (env : Env) (_cmd : List String) : Except PyError Unit :=
  match env.rendererError with
  | some e => .error e
  | none => .ok ()

/-- `MD_DIR = os.path.dirname(__file__)`, read from the environment. -/
def MD_DIR (env : Env) : String := env.md_dir

/-- The mermaid cache directory `f'{MD_DIR}/mermaid-images'`. -/
def mermaidDir (env : Env) : String := MD_DIR env ++ "/mermaid-images"

/-- The snippet cache file `f'{mermaid_dir}/{filename}.mmd'` for snippet
text `code`, where `filename = sha1(code)`. -/
def srcFile (env : Env) (code : String) : String :=
  mermaidDir env ++ "/" ++ Pandoc.sha1 code ++ ".mmd"

/-- The image file `f'{mermaid_dir}/{filename}.svg'` for snippet text
`code`, where `filename = sha1(code)`. -/
def dstImg (env : Env) (code : String) : String :=
  mermaidDir env ++ "/" ++ Pandoc.sha1 code ++ ".svg"

/-- The renderer command `['mmdc', '-i', src_file, '-o', dst_img]`. -/
def mmdcCmd (env : Env) (code : String) : List String :=
  ["mmdc", "-i", srcFile env code, "-o", dstImg env code]

/-- `mermaid(elem, doc)`: render a `mermaid` code block to an SVG image,
regenerating only when the snippet cache file is absent.  Returns the
Python result (`Except` for an uncaught exception, `Option Elem` for the
returned node) together with the trace of side effects performed. -/
def mermaid (env : Env) (elem : Elem) (_doc : Doc) :
    Except PyError (Option Elem) × List Effect :=
  match elem with
  | .CodeBlock text _identifier classes attributes =>
      if "mermaid" ∈ classes then
        let code := text
        let caption := getAttr attributes "caption" ""
        if env.isfile (srcFile env code) then
          (.ok (some (.Para [.Image [.Str caption] (dstImg env code) caption])), [])
        else
          -- try: os.mkdir(mermaid_dir) ... except OSError: pass
          let mkdirTrace : List Effect :=
            match os_mkdir env (mermaidDir env) with
            | .ok _ => [.mkdir (mermaidDir env)]
            | .error _ => [.mkdir (mermaidDir env)]
          -- with open(src_file, 'w') as f: f.write(code)
          let trace := mkdirTrace ++ [.writeFile (srcFile env code) code,
                                      .checkCall (mmdcCmd env code)]
          match check_call env (mmdcCmd env code) with
          | .error e => (.error e, trace)
          | .ok _ =>
              (.ok (some (.Para [.Image [.Str caption] (dstImg env code) caption])),
               trace)
      else (.ok none, [])
  | _ => (.ok none, [])

/-- `graphviz(elem, doc)`: on a `graphviz` code block the body evaluates
`pygraphviz.AGraph(string=code)`, but the `import pygraphviz` line is
commented out, so the name lookup raises `NameError` before any side
effect; on every other element it returns `None`. -/
def graphviz (_env : Env) (elem : Elem) (_doc : Doc) :
    Except PyError (Option Elem) × List Effect :=
  match elem with
  | .CodeBlock _text _identifier classes _attributes =>
      if "graphviz" ∈ classes then (.error .nameError, [])
      else (.ok none, [])
  | _ => (.ok none, [])

/-- `op(elem, doc)`: wrap an `op` inline code span in raw HTML (panflute
`RawInline` default format is `html`); the span text is spliced in
verbatim by the f-string, with no escaping. -/
def op (elem : Elem) (_doc : Doc) : Option Elem :=
  match elem with
  | .Code text _identifier classes _attributes =>
      if "op" ∈ classes then
        some (.RawInline ("<code><span class=\"op\">" ++ text ++ "</span></code>") "html")
      else none
  | _ => none

/-- Names of the five visitor functions defined in the module. -/
inductive FilterName where
  | h1hr
  | bq
  | graphviz
  | mermaid
  | op
  deriving DecidableEq, Repr

/-- The list passed to the host entry point in the `__main__` block:
`pf.run_filters([h1hr, bq, mermaid, op])` (the five-element list including
`graphviz` is commented out). -/
def registeredFilters : List FilterName :=
  [.h1hr, .bq, .mermaid, .op]

/-- Discriminator: is the element a `Header`? -/
def isHeader : Elem → Bool
  | .Header .. => true
  | _ => false

/-- Discriminator: is the element a `Div`? -/
def isDiv : Elem → Bool
  | .Div .. => true
  | _ => false

/-- Discriminator: is the element an inline `Code` span? -/
def isCode : Elem → Bool
  | .Code .. => true
  | _ => false

/-- A document value used to instantiate witnesses. -/
def htmlDoc : Doc := ⟨"html"⟩

/-- C5: `h1hr` returns a level-1 `Header` with its `style` attribute set to
the border rule, returns `None` on a `Header` of any other level, and
returns `None` on every element that is not a `Header`. -/
theorem h1hr_spec :
    (∀ content identifier classes attributes d,
      h1hr (.Header content 1 identifier classes attributes) d =
        some (.Header content 1 identifier classes
          (setAttr attributes "style" "border-bottom:1px solid #cccccc"))) ∧
    (∀ content level identifier classes attributes d, level ≠ 1 →
      h1hr (.Header content level identifier classes attributes) d = none) ∧
    (∀ e d, isHeader e = false → h1hr e d = none) := by
  refine ⟨?_, ?_, ?_⟩
  · intro content identifier classes attributes d
    simp [h1hr]
  · intro content level identifier classes attributes d h
    simp [h1hr, h]
  · intro e d h
    cases e <;> simp_all [h1hr, isHeader]

/-- Closed instantiation of `h1hr_spec` at concrete elements. -/
theorem h1hr_spec_witness :
    h1hr (.Header [] 1 "id" ["c"] [("k", "v")]) htmlDoc =
      some (.Header [] 1 "id" ["c"]
        (setAttr [("k", "v")] "style" "border-bottom:1px solid #cccccc")) ∧
    h1hr (.Header [] 2 "" [] []) htmlDoc = none ∧
    h1hr (.Str "x") htmlDoc = none :=
  ⟨h1hr_spec.1 [] "id" ["c"] [("k", "v")] htmlDoc,
   h1hr_spec.2.1 [] 2 "" [] [] htmlDoc (by decide),
   h1hr_spec.2.2 (.Str "x") htmlDoc rfl⟩

/-- C4: `bq` turns a `Div` whose class list is exactly `["bq"]` into a
`BlockQuote` of its content, wraps the content of a `Div` whose classes
contain `"std"` in a `BlockQuote` inside a fresh `Div` with the original
class list, and returns `None` on every non-`Div` and on every `Div`
matching neither case. -/
theorem bq_spec :
    (∀ content identifier attributes d,
      bq (.Div content identifier ["bq"] attributes) d =
        some (.BlockQuote content)) ∧
    (∀ content identifier classes attributes d, "std" ∈ classes →
      bq (.Div content identifier classes attributes) d =
        some (.Div [.BlockQuote content] "" classes [])) ∧
    (∀ e d, isDiv e = false → bq e d = none) ∧
    (∀ content identifier classes attributes d,
      classes ≠ ["bq"] → "std" ∉ classes →
      bq (.Div content identifier classes attributes) d = none) := by
  refine ⟨?_, ?_, ?_, ?_⟩
  · intro content identifier attributes d
    simp [bq]
  · intro content identifier classes attributes d h
    have hne : classes ≠ ["bq"] := by
      intro hc
      rw [hc] at h
      simp at h
    simp [bq, hne, h]
  · intro e d h
    cases e <;> simp_all [bq, isDiv]
  · intro content identifier classes attributes d h1 h2
    simp [bq, h1, h2]

/-- Closed instantiation of `bq_spec` at concrete elements. -/
theorem bq_spec_witness :
    bq (.Div [.Str "x"] "id" ["bq"] [("k", "v")]) htmlDoc =
      some (.BlockQuote [.Str "x"]) ∧
    bq (.Div [.Str "x"] "id" ["wg21", "std"] [("k", "v")]) htmlDoc =
      some (.Div [.BlockQuote [.Str "x"]] "" ["wg21", "std"] []) ∧
    bq (.Para [.Str "x"]) htmlDoc = none ∧
    bq (.Div [.Str "x"] "id" ["note"] []) htmlDoc = none :=
  ⟨bq_spec.1 [.Str "x"] "id" [("k", "v")] htmlDoc,
   bq_spec.2.1 [.Str "x"] "id" ["wg21", "std"] [("k", "v")] htmlDoc (by decide),
   bq_spec.2.2.1 (.Para [.Str "x"]) htmlDoc rfl,
   bq_spec.2.2.2 [.Str "x"] "id" ["note"] [] htmlDoc (by decide) (by decide)⟩

/-- C9: a `Div` whose classes contain `"bq"` next to other classes (and do
not contain `"std"`) is not rewritten: the `classes == ['bq']` test demands
the exact singleton list. -/
theorem bq_requires_exact_bq_class :
    ∀ content identifier classes attributes d,
      "bq" ∈ classes → classes ≠ ["bq"] → "std" ∉ classes →
      bq (.Div content identifier classes attributes) d = none := by
  intro content identifier classes attributes d _hmem hne hstd
  simp [bq, hne, hstd]

/-- Closed instantiation of `bq_requires_exact_bq_class` at
`classes = ["bq", "wide"]`. -/
theorem bq_requires_exact_bq_class_witness :
    bq (.Div [.Str "x"] "" ["bq", "wide"] []) htmlDoc = none :=
  bq_requires_exact_bq_class [.Str "x"] "" ["bq", "wide"] [] htmlDoc
    (by decide) (by decide) (by decide)

/-- C10: the `Div` that `bq` builds for a `std` container carries only the
original class list; the result is the same whatever the original
identifier and attributes were, and its identifier and attribute list are
the panflute defaults `""` and `[]`. -/
theorem bq_std_drops_identifier_attributes :
    ∀ content identifier identifier' classes attributes attributes' d,
      "std" ∈ classes →
      bq (.Div content identifier classes attributes) d =
        bq (.Div content identifier' classes attributes') d ∧
      bq (.Div content identifier classes attributes) d =
        some (.Div [.BlockQuote content] "" classes []) := by
  intro content identifier identifier' classes attributes attributes' d h
  have hne : classes ≠ ["bq"] := by
    intro hc
    rw [hc] at h
    simp at h
  constructor
  · simp [bq]
  · simp [bq, hne, h]

/-- Closed instantiation of `bq_std_drops_identifier_attributes` at a `Div`
with a nonempty identifier and attribute list. -/
theorem bq_std_drops_identifier_attributes_witness :
    bq (.Div [.Str "x"] "oldid" ["std"] [("a", "b")]) htmlDoc =
      bq (.Div [.Str "x"] "other" ["std"] []) htmlDoc ∧
    bq (.Div [.Str "x"] "oldid" ["std"] [("a", "b")]) htmlDoc =
      some (.Div [.BlockQuote [.Str "x"]] "" ["std"] []) :=
  bq_std_drops_identifier_attributes [.Str "x"] "oldid" "other" ["std"]
    [("a", "b")] [] htmlDoc (by decide)

/-- C6: `op` rewrites an inline `Code` span whose classes contain `"op"`
into a raw HTML inline splicing the span text verbatim between
`<code><span class="op">` and `</span></code>`, and returns `None` on a
`Code` span without the `op` class and on every non-`Code` element. -/
theorem op_spec :
    (∀ text identifier classes attributes d, "op" ∈ classes →
      op (.Code text identifier classes attributes) d =
        some (.RawInline ("<code><span class=\"op\">" ++ text ++ "</span></code>")
          "html")) ∧
    (∀ text identifier classes attributes d, "op" ∉ classes →
      op (.Code text identifier classes attributes) d = none) ∧
    (∀ e d, isCode e = false → op e d = none) := by
  refine ⟨?_, ?_, ?_⟩
  · intro text identifier classes attributes d h
    simp [op, h]
  · intro text identifier classes attributes d h
    simp [op, h]
  · intro e d h
    cases e <;> simp_all [op, isCode]

/-- Closed instantiation of `op_spec`, including an element whose text is
HTML-significant and is spliced unescaped. -/
theorem op_spec_witness :
    op (.Code "a<b" "" ["op"] []) htmlDoc =
      some (.RawInline ("<code><span class=\"op\">" ++ "a<b" ++ "</span></code>")
        "html") ∧
    op (.Code "a<b" "" ["kw"] []) htmlDoc = none ∧
    op (.Str "a<b") htmlDoc = none :=
  ⟨op_spec.1 "a<b" "" ["op"] [] htmlDoc (by decide),
   op_spec.2.1 "a<b" "" ["kw"] [] htmlDoc (by decide),
   op_spec.2.2 (.Str "a<b") htmlDoc rfl⟩

/-- An environment whose cache directory holds every file (all `isfile`
queries answer true) and where no call raises. -/
def hitEnv : Env := ⟨"/md", fun _ => true, fun _ => none, none⟩

/-- An environment with an empty filesystem where no call raises. -/
def missEnv : Env := ⟨"/md", fun _ => false, fun _ => none, none⟩

/-- An environment with an empty filesystem where `os.mkdir` raises
`OSError` (for instance because the directory already exists). -/
def mkdirFailEnv : Env := ⟨"/md", fun _ => false, fun _ => some .osError, none⟩

/-- An environment with an empty filesystem where the renderer invocation
fails with a non-zero exit status. -/
def procFailEnv : Env :=
  ⟨"/md", fun _ => false, fun _ => none, some (.calledProcessError 1)⟩

/-- An environment in which exactly one file exists: the rendered output
image `<MD_DIR>/mermaid-images/<sha1 "g">.svg` for the snippet text `"g"`
(with `sha1 "g" = 54fd1711209fb1c0781092374132c66e79e2241b`), while the
snippet cache file `<sha1 "g">.mmd` is absent. -/
def svgOnlyEnv : Env :=
  ⟨"/md",
   fun p => p == "/md/mermaid-images/54fd1711209fb1c0781092374132c66e79e2241b.svg",
   fun _ => none, none⟩

set_option maxRecDepth 1000000

/-- Associativity of string concatenation, via the underlying lists. -/
theorem string_append_assoc (a b c : String) : a ++ b ++ c = a ++ (b ++ c) := by
  apply String.ext
  simp [String.data_append]

/-- C1 (counterexample): in `svgOnlyEnv` the output image for the snippet
`"g"` exists, yet the filter does not skip regeneration: it writes the
snippet file and invokes the renderer, because the cache test looks for
the `.mmd` snippet file, which is absent. -/
theorem mermaid_cache_check_counterexample :
    svgOnlyEnv.isfile (dstImg svgOnlyEnv "g") = true ∧
    (mermaid svgOnlyEnv (.CodeBlock "g" "" ["mermaid"] []) htmlDoc).2 =
      [.mkdir (mermaidDir svgOnlyEnv),
       .writeFile (srcFile svgOnlyEnv "g") "g",
       .checkCall (mmdcCmd svgOnlyEnv "g")] := by
  decide

/-- C1 (amended): for a `mermaid` code block the filter performs no side
effect if and only if the snippet cache file `<hash>.mmd` already exists;
when that file is absent it attempts the directory creation, writes the
snippet, and invokes the renderer, whether or not the output image
exists. -/
theorem mermaid_cache_on_snippet_file :
    ∀ env text identifier classes attributes d, "mermaid" ∈ classes →
      ((mermaid env (.CodeBlock text identifier classes attributes) d).2 = [] ↔
        env.isfile (srcFile env text) = true) ∧
      (env.isfile (srcFile env text) = false →
        (mermaid env (.CodeBlock text identifier classes attributes) d).2 =
          [.mkdir (mermaidDir env), .writeFile (srcFile env text) text,
           .checkCall (mmdcCmd env text)]) := by
  intro env text identifier classes attributes d hmem
  simp only [mermaid, if_pos hmem]
  by_cases hf : env.isfile (srcFile env text) = true
  · simp [hf]
  · rw [if_neg hf]
    cases hmk : os_mkdir env (mermaidDir env) <;>
      cases hcc : check_call env (mmdcCmd env text) <;>
      simp_all [hmk, hcc]

/-- Closed instantiation of `mermaid_cache_on_snippet_file` in the
empty-filesystem environment. -/
theorem mermaid_cache_on_snippet_file_witness :
    ((mermaid missEnv (.CodeBlock "g" "" ["mermaid"] []) htmlDoc).2 = [] ↔
      missEnv.isfile (srcFile missEnv "g") = true) ∧
    (missEnv.isfile (srcFile missEnv "g") = false →
      (mermaid missEnv (.CodeBlock "g" "" ["mermaid"] []) htmlDoc).2 =
        [.mkdir (mermaidDir missEnv), .writeFile (srcFile missEnv "g") "g",
         .checkCall (mmdcCmd missEnv "g")]) :=
  mermaid_cache_on_snippet_file missEnv "g" "" ["mermaid"] [] htmlDoc (by decide)

/-- C2: whenever the filter returns normally on a `mermaid` code block, the
returned node is a `Para` holding exactly one `Image` whose url is
`<MD_DIR>/mermaid-images/<sha1 text>.svg` and whose alt text and title both
equal the block's `caption` attribute (defaulting to `""`); and the cache
path depends only on the SHA-1 digest of the snippet text. -/
theorem mermaid_output_image :
    (∀ env code, dstImg env code =
      MD_DIR env ++ "/mermaid-images/" ++ Pandoc.sha1 code ++ ".svg") ∧
    (∀ env text identifier classes attributes d r, "mermaid" ∈ classes →
      (mermaid env (.CodeBlock text identifier classes attributes) d).1 = .ok r →
      r = some (.Para [.Image [.Str (getAttr attributes "caption" "")]
            (dstImg env text) (getAttr attributes "caption" "")])) ∧
    (∀ env code code', Pandoc.sha1 code = Pandoc.sha1 code' →
      dstImg env code = dstImg env code') := by
  refine ⟨?_, ?_, ?_⟩
  · intro env code
    simp only [dstImg, mermaidDir, MD_DIR]
    rw [string_append_assoc env.md_dir "/mermaid-images" "/"]
    have hlit : ("/mermaid-images" ++ "/" : String) = "/mermaid-images/" := rfl
    rw [hlit]
  · intro env text identifier classes attributes d r hmem hok
    simp only [mermaid, if_pos hmem] at hok
    by_cases hf : env.isfile (srcFile env text) = true
    · rw [if_pos hf] at hok
      simp at hok
      exact hok.symm
    · rw [if_neg hf] at hok
      cases hcc : check_call env (mmdcCmd env text) <;> rw [hcc] at hok <;>
        simp at hok
      exact hok.symm
  · intro env code code' h
    simp [dstImg, h]

/-- Closed instantiation of `mermaid_output_image` in the cache-hit
environment. -/
theorem mermaid_output_image_witness :
    dstImg hitEnv "g" =
      MD_DIR hitEnv ++ "/mermaid-images/" ++ Pandoc.sha1 "g" ++ ".svg" ∧
    (some (Elem.Para [.Image [.Str (getAttr [] "caption" "")] (dstImg hitEnv "g")
        (getAttr [] "caption" "")]) : Option Elem) =
      some (.Para [.Image [.Str (getAttr [] "caption" "")] (dstImg hitEnv "g")
        (getAttr [] "caption" "")]) ∧
    dstImg hitEnv "g" = dstImg hitEnv "g" :=
  ⟨mermaid_output_image.1 hitEnv "g",
   mermaid_output_image.2.1 hitEnv "g" "" ["mermaid"] [] htmlDoc _ (by decide) rfl,
   mermaid_output_image.2.2 hitEnv "g" "g" rfl⟩

/-- C3 (counterexample): the `__main__` block does not register five
filters and does not register `graphviz`: the five-element list is
commented out and `pf.run_filters([h1hr, bq, mermaid, op])` runs. -/
theorem registered_filters_counterexample :
    registeredFilters.length ≠ 5 ∧ FilterName.graphviz ∉ registeredFilters := by
  decide

/-- C3 (amended): exactly four visitor functions — `h1hr`, `bq`, `mermaid`
and `op` — are registered with the host entry point; `graphviz` is defined
in the module but its registration is commented out. -/
theorem registered_filters_amended :
    registeredFilters.length = 4 ∧
    FilterName.graphviz ∉ registeredFilters ∧
    FilterName.h1hr ∈ registeredFilters ∧
    FilterName.bq ∈ registeredFilters ∧
    FilterName.mermaid ∈ registeredFilters ∧
    FilterName.op ∈ registeredFilters := by
  decide

/-- C7: the outcome of `mermaid` (return value and side-effect trace alike)
is unchanged under any behaviour of `os.mkdir`, because the `OSError` it
may raise is caught and discarded; by contrast, when the regeneration path
runs and `subprocess.check_call` raises — be it `CalledProcessError` or the
`OSError` of a missing `mmdc` binary — that exception propagates out of the
filter unchanged. -/
theorem mermaid_error_handling :
    (∀ env env' elem d, env.md_dir = env'.md_dir → env.isfile = env'.isfile →
      env.rendererError = env'.rendererError →
      mermaid env elem d = mermaid env' elem d) ∧
    (∀ env text identifier classes attributes d e, "mermaid" ∈ classes →
      env.isfile (srcFile env text) = false → env.rendererError = some e →
      (mermaid env (.CodeBlock text identifier classes attributes) d).1 =
        .error e) := by
  constructor
  · intro env env' elem d hm hf hr
    obtain ⟨m, f, k, r⟩ := env
    obtain ⟨m', f', k', r'⟩ := env'
    simp only at hm hf hr
    subst hm; subst hf; subst hr
    cases elem <;> try rfl
    case CodeBlock text identifier classes attributes =>
      dsimp only [mermaid, os_mkdir, check_call, srcFile, dstImg, mermaidDir,
        mmdcCmd, MD_DIR]
      by_cases hmem : "mermaid" ∈ classes
      · rw [if_pos hmem, if_pos hmem]
        by_cases hfile :
            f (m ++ "/mermaid-images" ++ "/" ++ Pandoc.sha1 text ++ ".mmd") = true
        · rw [if_pos hfile, if_pos hfile]
        · rw [if_neg hfile, if_neg hfile]
          cases k (m ++ "/mermaid-images") <;>
            cases k' (m ++ "/mermaid-images") <;> rfl
      · rw [if_neg hmem, if_neg hmem]
  · intro env text identifier classes attributes d e hmem hfile hrend
    simp only [mermaid, if_pos hmem]
    rw [if_neg (by simp [hfile])]
    have hcc : check_call env (mmdcCmd env text) = .error e := by
      simp [check_call, hrend]
    rw [hcc]

/-- Closed instantiation of `mermaid_error_handling`: a failing `os.mkdir`
leaves the run of the filter unchanged, and a failing renderer invocation
surfaces as the error result. -/
theorem mermaid_error_handling_witness :
    mermaid missEnv (.CodeBlock "g" "" ["mermaid"] []) htmlDoc =
      mermaid mkdirFailEnv (.CodeBlock "g" "" ["mermaid"] []) htmlDoc ∧
    (mermaid procFailEnv (.CodeBlock "g" "" ["mermaid"] []) htmlDoc).1 =
      .error (.calledProcessError 1) :=
  ⟨mermaid_error_handling.1 missEnv mkdirFailEnv
      (.CodeBlock "g" "" ["mermaid"] []) htmlDoc rfl rfl rfl,
   mermaid_error_handling.2 procFailEnv "g" "" ["mermaid"] [] htmlDoc
      (.calledProcessError 1) (by decide) rfl rfl⟩

/-- C8: the five filters are deterministic functions of their arguments —
the element, the document, and (for the two that touch the filesystem) the
explicit environment; equal inputs always produce equal outputs, the whole
machine state they read or write being the explicit `Env` and effect
trace. -/
theorem filters_deterministic :
    ∀ (e e' : Elem) (d d' : Doc) (env env' : Env),
      e = e' → d = d' → env = env' →
      h1hr e d = h1hr e' d' ∧
      bq e d = bq e' d' ∧
      op e d = op e' d' ∧
      graphviz env e d = graphviz env' e' d' ∧
      mermaid env e d = mermaid env' e' d' := by
  intro e e' d d' env env' he hd henv
  subst he; subst hd; subst henv
  exact ⟨rfl, rfl, rfl, rfl, rfl⟩

/-- Closed instantiation of `filters_deterministic` at a concrete element,
document and environment. -/
theorem filters_deterministic_witness :
    h1hr (.Str "x") htmlDoc = h1hr (.Str "x") htmlDoc ∧
    bq (.Str "x") htmlDoc = bq (.Str "x") htmlDoc ∧
    op (.Str "x") htmlDoc = op (.Str "x") htmlDoc ∧
    graphviz missEnv (.Str "x") htmlDoc = graphviz missEnv (.Str "x") htmlDoc ∧
    mermaid missEnv (.Str "x") htmlDoc = mermaid missEnv (.Str "x") htmlDoc :=
  filters_deterministic (.Str "x") (.Str "x") htmlDoc htmlDoc missEnv missEnv
    rfl rfl rfl

end Pandoc
